import Mathlib

/-!
Formal model of `Task1_PPTX_report/pptx_maker.py`.

The Python module converts a JSON-described outline into a slide deck.  We
give a shallow embedding: JSON values, Python float/int conversions, the data
file reader, the five slide builders, the plot renderer and the presentation
assembler become executable Lean definitions; exceptions become an explicit
error type, and in-place mutation of the presentation object becomes explicit
state passing (every builder returns the post-call state of the document,
together with the error it raised, if any).
-/

set_option maxHeartbeats 1000000

/-- Model of a Python float value as it matters to this program: an exact
rational for finite values, signed infinity, or NaN.  IEEE rounding of
decimal literals is abstracted away (literal values are kept exact). -/
inductive PyFloat where
  | finite (q : ℚ)
  | inf (neg : Bool)
  | nan
deriving DecidableEq

/-- True exactly on finite float values. -/
def PyFloat.isFinite : PyFloat → Bool
  | .finite _ => true
  | _ => false

/-- Negation of a Python float (used for a leading minus sign). -/
def pyNeg : PyFloat → PyFloat
  | .finite q => .finite (-q)
  | .inf b => .inf (!b)
  | .nan => .nan

/-- Python `<` on floats: NaN compares false against everything. -/
def pyLt : PyFloat → PyFloat → Bool
  | .finite a, .finite b => a < b
  | .finite _, .inf b => !b
  | .inf a, .finite _ => a
  | .inf a, .inf b => a && !b
  | _, _ => false

/-- Python `==` on floats: NaN is not equal to anything, including itself. -/
def pyEqF : PyFloat → PyFloat → Bool
  | .finite a, .finite b => a == b
  | .inf a, .inf b => a == b
  | _, _ => false

/-- CPython tuple comparison specialised to pairs: find the first component
where the items differ (under `==`) and compare it with `<`. -/
def pyTupleLt (p q : PyFloat × PyFloat) : Bool :=
  if !(pyEqF p.1 q.1) then pyLt p.1 q.1
  else if !(pyEqF p.2 q.2) then pyLt p.2 q.2
  else false

/-- The characters stripped by Python `str.strip()` (ASCII whitespace). -/
def pyIsSpace (c : Char) : Bool :=
  c == ' ' || c == '\t' || c == '\n' || c == '\r' || c == '\x0b' || c == '\x0c'

/-- Model of Python `str.strip()`: remove leading and trailing whitespace. -/
def pyStrip (s : String) : String :=
  String.mk (((s.data.dropWhile pyIsSpace).reverse.dropWhile pyIsSpace).reverse)

/-- Optional leading sign of a numeric literal; returns (isNegative, rest). -/
def parseSign : List Char → Bool × List Char
  | '+' :: r => (false, r)
  | '-' :: r => (true, r)
  | r => (false, r)

/-- A run of decimal digits, with single underscores allowed between digits
(as in CPython numeric literals).  `acc` is the value so far and `n` the
number of digits consumed; returns (value, digit count, rest). -/
def parseDigitRun : List Char → Nat → Nat → Nat × Nat × List Char
  | [], acc, n => (acc, n, [])
  | c :: rest, acc, n =>
    if c.isDigit then parseDigitRun rest (10 * acc + (c.toNat - 48)) (n + 1)
    else if c == '_' && n != 0 then
      match rest with
      | d :: rest2 =>
        if d.isDigit then parseDigitRun rest2 (10 * acc + (d.toNat - 48)) (n + 1)
        else (acc, n, c :: rest)
      | [] => (acc, n, [c])
    else (acc, n, c :: rest)

/-- The special float literals `inf`, `infinity` and `nan` (case-insensitive,
matching the whole remaining input). -/
def parseSpecial (cs : List Char) : Option PyFloat :=
  let l := cs.map Char.toLower
  if l = "inf".data || l = "infinity".data then some (.inf false)
  else if l = "nan".data then some .nan
  else none

/-- Optional exponent part of a float literal: empty input means exponent 0;
otherwise `e`/`E`, an optional sign and a nonempty digit run consuming the
whole rest of the input. -/
def parseExponent : List Char → Option Int
  | [] => some 0
  | e :: r =>
    if e == 'e' || e == 'E' then
      let (eneg, r2) := parseSign r
      let (ev, ec, r3) := parseDigitRun r2 0 0
      if ec > 0 && r3.isEmpty then some (if eneg then -(ev : Int) else (ev : Int))
      else none
    else none

/-- Exact value of a decimal float literal with integer part `ip`, `fc`
fractional digits of value `fp`, exponent `ex` and sign `neg`: the rational
(sign) (ip.fp) times ten to the ex. -/
def decimalValue (neg : Bool) (ip fc fp : Nat) (ex : Int) : ℚ :=
  let mantissa : Int := (ip * 10 ^ fc + fp : Nat)
  let signed : Int := if neg then -mantissa else mantissa
  mkRat (signed * 10 ^ ex.toNat) (10 ^ fc * 10 ^ (-ex).toNat)

/-- Decimal (non-special) part of the float grammar: digits, an optional
point with more digits (at least one digit in total), and an optional
exponent; the whole input must be consumed. -/
def parseDecimal (neg : Bool) (cs : List Char) : Option PyFloat :=
  let (ip, ic, r1) := parseDigitRun cs 0 0
  let step2 : Nat × Nat × List Char :=
    match r1 with
    | '.' :: r => parseDigitRun r 0 0
    | _ => (0, 0, r1)
  let (fp, fc, r2) := step2
  if ic + fc == 0 then none
  else
    match parseExponent r2 with
    | some ex => some (.finite (decimalValue neg ip fc fp ex))
    | none => none

/-- Model of CPython `float(str)`: strip whitespace, optional sign, then
either one of the special literals `inf`/`infinity`/`nan` (case-insensitive)
or a decimal literal with optional fraction and exponent.  Returns `none`
where CPython raises `ValueError`.  Overflow of huge exponents to infinity
is abstracted away (values are kept exact). -/
def pyFloatOfString (s : String) : Option PyFloat :=
  let cs := (pyStrip s).data
  if cs.isEmpty then none
  else
    let (neg, cs1) := parseSign cs
    match parseSpecial cs1 with
    | some f => some (if neg then pyNeg f else f)
    | none => parseDecimal neg cs1

/-- Model of Python `str.split` with the one-character separator `;` used by
the data file reader: splits on every occurrence, keeping empty pieces. -/
def splitSemiAux : List Char → List (List Char)
  | [] => [[]]
  | c :: rest =>
    let r := splitSemiAux rest
    if c == ';' then [] :: r
    else
      match r with
      | t :: ts => (c :: t) :: ts
      | [] => [[c]]

/-- Python `s.split(";")` on strings. -/
def pySplitSemi (s : String) : List String := (splitSemiAux s.data).map String.mk

/-- Model of a Python `int(str)` conversion: strip, optional sign, nonempty
digit run (underscores between digits allowed) consuming the whole input. -/
def pyIntOfString (s : String) : Option Int :=
  let cs := (pyStrip s).data
  if cs.isEmpty then none
  else
    let (neg, cs1) := parseSign cs
    let (v, n, r) := parseDigitRun cs1 0 0
    if n > 0 && r.isEmpty then some (if neg then -(v : Int) else (v : Int)) else none

/-- Truncation toward zero of a rational, as in Python `int(float)`. -/
def ratTrunc (q : ℚ) : Int := if q < 0 then -(Rat.floor (-q)) else Rat.floor q

/-- The Python exceptions this program can raise or observe.  An argument
string carries the exception argument (for `KeyError`, the key or message
passed to the constructor; `str` of the exception adds quotes around it). -/
inductive PyError where
  | keyError (arg : String)
  | valueError (msg : String)
  | typeError (msg : String)
  | fileNotFoundError (path : String)
  | osError (msg : String)
  | overflowError (msg : String)
deriving DecidableEq

/-- Tests for `OSError` and its subclasses; in Python 3, `IOError` is an alias of
`OSError` and `FileNotFoundError` subclasses it. -/
def PyError.isOSError : PyError → Bool
  | .fileNotFoundError _ => true
  | .osError _ => true
  | _ => false

/-- JSON values as produced by Python `json.load`: numbers become `int` or
`float`, objects become dicts (represented as key/value lists in insertion
order; parsed objects have unique keys since later duplicates overwrite). -/
inductive JSON where
  | null
  | bool (b : Bool)
  | int (n : Int)
  | float (f : PyFloat)
  | str (s : String)
  | arr (elems : List JSON)
  | obj (entries : List (String × JSON))

/-- Python repr of a float.  The exact shortest-digits repr of CPython is
approximated (no theorem in this file evaluates a message at a float input);
integral finite values print as in Python, other rationals as fractions. -/
def pyReprFloat : PyFloat → String
  | .nan => "nan"
  | .inf b => if b then "-inf" else "inf"
  | .finite q => if q.den = 1 then toString q.num ++ ".0" else toString q.num ++ "/" ++ toString q.den

mutual

/-- Python `repr` of a parsed-JSON value (used by f-string interpolation of
dicts inside error messages). -/
def pyRepr : JSON → String
  | .null => "None"
  | .bool b => if b then "True" else "False"
  | .int n => toString n
  | .float f => pyReprFloat f
  | .str s => "\x27" ++ s ++ "\x27"
  | .arr xs => "[" ++ pyReprElems xs ++ "]"
  | .obj kvs => "\x7b" ++ pyReprEntries kvs ++ "\x7d"

/-- Comma-separated reprs of the elements of a list. -/
def pyReprElems : List JSON → String
  | [] => ""
  | [x] => pyRepr x
  | x :: y :: rest => pyRepr x ++ ", " ++ pyReprElems (y :: rest)

/-- Comma-separated `key: value` reprs of the entries of a dict. -/
def pyReprEntries : List (String × JSON) → String
  | [] => ""
  | [(k, v)] => "\x27" ++ k ++ "\x27: " ++ pyRepr v
  | (k, v) :: e :: rest => "\x27" ++ k ++ "\x27: " ++ pyRepr v ++ ", " ++ pyReprEntries (e :: rest)

end

/-- Python `str` of a parsed-JSON value, as interpolated by an f-string:
strings appear bare, every other value as its repr. -/
def pyStr : JSON → String
  | .str s => s
  | j => pyRepr j

/-- Python subscription `value[key]` with a string key: a dict lookup that
raises `KeyError(key)` when the key is absent, and `TypeError` when the
subscripted value is not a dict. -/
def getKey : JSON → String → Except PyError JSON
  | .obj kvs, k =>
    match kvs.lookup k with
    | some v => .ok v
    | none => .error (.keyError k)
  | .str _, _ => .error (.typeError "string indices must be integers")
  | .arr _, _ => .error (.typeError "list indices must be integers or slices, not str")
  | .null, _ => .error (.typeError "\x27NoneType\x27 object is not subscriptable")
  | .bool _, _ => .error (.typeError "\x27bool\x27 object is not subscriptable")
  | .int _, _ => .error (.typeError "\x27int\x27 object is not subscriptable")
  | .float _, _ => .error (.typeError "\x27float\x27 object is not subscriptable")

/-- Python iteration `for x in value`: lists yield their elements, strings
their characters, dicts their keys; other values raise `TypeError`. -/
def pyIter : JSON → Except PyError (List JSON)
  | .arr xs => .ok xs
  | .str s => .ok (s.data.map fun c => .str (String.singleton c))
  | .obj kvs => .ok (kvs.map fun kv => .str kv.1)
  | .null => .error (.typeError "\x27NoneType\x27 object is not iterable")
  | .bool _ => .error (.typeError "\x27bool\x27 object is not iterable")
  | .int _ => .error (.typeError "\x27int\x27 object is not iterable")
  | .float _ => .error (.typeError "\x27float\x27 object is not iterable")

/-- Python `int(value)` on a parsed-JSON value: ints pass through, bools
become 0/1, finite floats truncate toward zero, non-finite floats raise,
strings are parsed as integer literals, and other values raise `TypeError`. -/
def pyInt : JSON → Except PyError Int
  | .int n => .ok n
  | .bool b => .ok (if b then 1 else 0)
  | .float (.finite q) => .ok (ratTrunc q)
  | .float (.inf _) => .error (.overflowError "cannot convert float infinity to integer")
  | .float .nan => .error (.valueError "cannot convert float NaN to integer")
  | .str s =>
    match pyIntOfString s with
    | some n => .ok n
    | none => .error (.valueError ("invalid literal for int() with base 10: \x27" ++ s ++ "\x27"))
  | .null => .error (.typeError "int() argument must be a string, a bytes-like object or a real number, not \x27NoneType\x27")
  | .arr _ => .error (.typeError "int() argument must be a string, a bytes-like object or a real number, not \x27list\x27")
  | .obj _ => .error (.typeError "int() argument must be a string, a bytes-like object or a real number, not \x27dict\x27")

/-- Status of a path when opened as an image: absent, present but not
decodable as an image, decodable but failing verification, or valid. -/
inductive ImgStat where
  | absent
  | notImage
  | corrupt
  | valid
deriving DecidableEq

/-- The file system the program reads: text files as lists of lines (for the
data file reader; `none` is a missing file), and the image status of paths
opened through PIL. -/
structure Env where
  files : String → Option (List String)
  images : String → ImgStat

/-- An environment with no readable files and no valid images. -/
def envEmpty : Env := ⟨fun _ => none, fun _ => .absent⟩

/-- A slide of the in-progress document, keeping exactly the state the
builders set: title and subtitle/body text placeholders hold the value
assigned verbatim; a list slide holds its (text, indentation level)
paragraphs; a picture slide its embedded image path, if any; a plot slide
the plotted (sorted) points with the two axis labels, if the chart was
embedded. -/
inductive Slide where
  | titleSlide (title subtitle : JSON)
  | textSlide (title body : JSON)
  | listSlide (title : JSON) (paragraphs : List (JSON × Int))
  | pictureSlide (title : JSON) (image : Option String)
  | plotSlide (title : JSON) (chart : Option (List (PyFloat × PyFloat) × JSON × JSON))

/-- The in-progress document: its ordered sequence of slides. -/
abbrev Document := List Slide

/-- Message of the ValueError for a malformed float token in a data line
(pptx_maker.py line 154). -/
def msgLineFloat (line fp : String) : String :=
  "Warning: Problem with line " ++ line ++ " in data file " ++ fp ++ "."

/-- Message of the ValueError for a data line without exactly two tokens
(pptx_maker.py line 156). -/
def msgLineCount (line fp : String) : String :=
  "Line " ++ line ++ " in data file " ++ fp ++ " incorrectly formatted."

/-- Message of the KeyError for a missing top-level `presentation` key
(pptx_maker.py line 258). -/
def msgTopMissing : String :=
  "Your JSON file has no top level object named \x27presentation\x27, despite it being required. Please check your JSON file."

/-- Message of the KeyError for a slide lacking `type`, `title` or `content`
(pptx_maker.py line 266); interpolates the slide dict and the str of the
caught KeyError, which quotes the key. -/
def msgSlideMissing (sd : JSON) (k : String) : String :=
  "In the JSON file, slide object " ++ pyStr sd ++ " had no key \x27" ++ k ++ "\x27, despite it being required. Please check your JSON file."

/-- Message of the KeyError for a plot slide lacking `configuration`,
`x-label` or `y-label` (pptx_maker.py line 285). -/
def msgPlotMissing (sd : JSON) (k : String) : String :=
  "In the JSON file, the plot slide object " ++ pyStr sd ++ " had no key \x27" ++ k ++ "\x27, despite it being required. Please check your JSON file."

/-- Message of the ValueError for an unrecognized slide type
(pptx_maker.py line 289). -/
def msgInvalidType (t sd : JSON) : String :=
  "Incorrect slide type attribute (" ++ pyStr t ++ ") given for the slide object " ++ pyStr sd

/-- Message of the ValueError for a list item with a non-positive level
(pptx_maker.py line 78). -/
def msgListLevel (item title : JSON) : String :=
  "Invalid \x27level\x27 attribute in JSON entry " ++ pyStr item ++ " in the list slide titled " ++ pyStr title

/-- Message of the ValueError for an invalid image path
(pptx_maker.py line 124). -/
def msgBadImage (c : JSON) : String :=
  "The filepath " ++ pyStr c ++ " included in your JSON file does not point to a valid image file."

/-- The loop body of `readDataFile` (pptx_maker.py lines 142-157): strip each
line, skip blank lines, require exactly two `;`-separated tokens, convert
both with `float`, and accumulate the pairs in `data`; the first malformed
line aborts with a ValueError. -/
def readDataAux (fp : String) (data : List (PyFloat × PyFloat)) :
    List String → Except PyError (List (PyFloat × PyFloat))
  | [] => .ok data
  | line :: rest =>
    let l := pyStrip line
    if l == "" then readDataAux fp data rest
    else
      match pySplitSemi l with
      | [a, b] =>
        match pyFloatOfString a with
        | none => .error (.valueError (msgLineFloat l fp))
        | some x =>
          match pyFloatOfString b with
          | none => .error (.valueError (msgLineFloat l fp))
          | some y => readDataAux fp (data ++ [(x, y)]) rest
      | _ => .error (.valueError (msgLineCount l fp))

/-- Function `readDataFile` (pptx_maker.py lines 128-157) applied to the lines of an
already-opened file. -/
def readDataFileLines (fp : String) (lines : List String) :
    Except PyError (List (PyFloat × PyFloat)) :=
  readDataAux fp [] lines

/-- Function `readDataFile` including the `open` call: a missing file raises
`FileNotFoundError`. -/
def readDataFileFS (env : Env) (fp : String) : Except PyError (List (PyFloat × PyFloat)) :=
  match env.files fp with
  | none => .error (.fileNotFoundError fp)
  | some lines => readDataFileLines fp lines

/-- Insertion of `x` into `l` before the first element strictly greater than
it: the step of a stable sort with respect to the strict order `lt`. -/
def stableInsertLt {α : Type} (lt : α → α → Bool) (x : α) : List α → List α
  | [] => [x]
  | y :: ys => if lt x y then x :: y :: ys else y :: stableInsertLt lt x ys

/-- Stable sort by repeated insertion, processing the input left to right so
that elements that do not compare strictly keep their original order.  For
inputs on which `lt` is a strict weak order (here: no NaN coordinates) the
stable sorted permutation is unique, so this agrees with the Timsort used by
Python `list.sort`. -/
def stableSortLt {α : Type} (lt : α → α → Bool) (l : List α) : List α :=
  l.foldl (fun acc x => stableInsertLt lt x acc) []

/-- Function `createPlotImage` (pptx_maker.py lines 159-185).  `datapoints.sort()`
sorts the caller's list in place by Python tuple comparison; the x and then
the y coordinates of the sorted list are plotted.  We model the mutation by
returning the post-call state of the `datapoints` argument, which is also
the sequence of plotted points saved to the temporary image file. -/
def createPlotImage (datapoints : List (PyFloat × PyFloat)) : List (PyFloat × PyFloat) :=
  stableSortLt pyTupleLt datapoints

/-- Function `addTitleSlide` (pptx_maker.py lines 11-29): appends one slide and sets
its title and subtitle placeholders. -/
def addTitleSlide (p : Document) (title_text subtitle_text : JSON) : Document :=
  p ++ [.titleSlide title_text subtitle_text]

/-- Function `addTextSlide` (pptx_maker.py lines 31-49): appends one slide and sets
its title and body placeholders. -/
def addTextSlide (p : Document) (title_text text : JSON) : Document :=
  p ++ [.textSlide title_text text]

/-- The `for list_item in list_json` loop of `addListSlide` (pptx_maker.py
lines 75-82), returning the paragraphs added to the (already appended) slide
and the error that aborted the loop, if any.  Per item: read `level`, convert
with `int`, require it positive, read `text`, then add a paragraph with
indentation `level - 1`. -/
def listLoop (title_text : JSON) : List JSON → List (JSON × Int) → List (JSON × Int) × Option PyError
  | [], acc => (acc, none)
  | item :: rest, acc =>
    match getKey item "level" with
    | .error e => (acc, some e)
    | .ok v =>
      match pyInt v with
      | .error e => (acc, some e)
      | .ok level =>
        if !(level > 0 : Bool) then (acc, some (.valueError (msgListLevel item title_text)))
        else
          match getKey item "text" with
          | .error e => (acc, some e)
          | .ok text => listLoop title_text rest (acc ++ [(text, level - 1)])

/-- Function `addListSlide` (pptx_maker.py lines 51-82): the slide is appended and its
title set before the item loop runs, so on error the document has gained a
list slide carrying the paragraphs added so far. -/
def addListSlide (p : Document) (title_text list_json : JSON) : Document × Option PyError :=
  match pyIter list_json with
  | .error e => (p ++ [.listSlide title_text []], some e)
  | .ok items =>
    let (paras, err) := listLoop title_text items []
    (p ++ [.listSlide title_text paras], err)

/-- PIL `Image.open` followed by `img.verify()` (pptx_maker.py lines 96-97),
modelled from the Pillow library: a missing path raises `FileNotFoundError`,
an unrecognized file raises `UnidentifiedImageError` and a failing
verification an OSError; all of these are OSError subclasses. -/
def pilOpenVerify (env : Env) (p : String) : Except PyError Unit :=
  match env.images p with
  | .absent => .error (.fileNotFoundError p)
  | .notImage => .error (.osError ("cannot identify image file " ++ p))
  | .corrupt => .error (.osError ("image verification failed for " ++ p))
  | .valid => .ok ()

/-- Function `isValidImage` (pptx_maker.py lines 84-100): try to open and verify the
image, returning True on success; an `IOError` (alias of OSError) is caught
and becomes False, any other exception would propagate. -/
def isValidImage (env : Env) (p : String) : Except PyError Bool :=
  match pilOpenVerify env p with
  | .ok _ => .ok true
  | .error e => if e.isOSError then .ok false else .error e

/-- Function `addImgSlide` (pptx_maker.py lines 102-126): the slide is appended and
its title set before the image path is validated, so on a validation error
the document has gained a picture slide with no image.  A non-string path is
modelled as the TypeError PIL raises when opening it. -/
def addImgSlide (env : Env) (p : Document) (title_text img_path : JSON) : Document × Option PyError :=
  let p1 := p ++ [.pictureSlide title_text none]
  match img_path with
  | .str path =>
    match isValidImage env path with
    | .error e => (p1, some e)
    | .ok true => (p ++ [.pictureSlide title_text (some path)], none)
    | .ok false => (p1, some (.valueError (msgBadImage img_path)))
  | _ => (p1, some (.typeError "expected str, bytes or os.PathLike object"))

/-- Function `addPlotSlide` with `addChartToPlotSlide` inlined (pptx_maker.py lines
187-233): the slide is appended and its title set, then the data file is
read (propagating its errors), the plot image is created from the sorted
points and embedded, and the temporary file is removed (removal is modelled
as succeeding).  A non-string data path is modelled as the TypeError `open`
raises on it. -/
def addPlotSlide (env : Env) (p : Document) (title_text data_path x_label y_label : JSON) :
    Document × Option PyError :=
  let p1 := p ++ [.plotSlide title_text none]
  match data_path with
  | .str path =>
    match readDataFileFS env path with
    | .error e => (p1, some e)
    | .ok datapoints =>
      (p ++ [.plotSlide title_text (some (createPlotImage datapoints, x_label, y_label))], none)
  | _ => (p1, some (.typeError "expected str, bytes or os.PathLike object"))

/-- The per-slide body of the loop in `makePresentation` (pptx_maker.py lines
260-289): read `type`, `title` and `content` (a KeyError is re-raised with a
message naming the slide and the key), dispatch on the type string, read the
plot configuration when the type is `plot` (again re-raising KeyErrors with
a naming message), and an unrecognized type raises a ValueError. -/
def processSlide (env : Env) (p : Document) (slide_data : JSON) : Document × Option PyError :=
  match getKey slide_data "type" with
  | .error (.keyError k) => (p, some (.keyError (msgSlideMissing slide_data k)))
  | .error e => (p, some e)
  | .ok slide_type =>
    match getKey slide_data "title" with
    | .error (.keyError k) => (p, some (.keyError (msgSlideMissing slide_data k)))
    | .error e => (p, some e)
    | .ok slide_title =>
      match getKey slide_data "content" with
      | .error (.keyError k) => (p, some (.keyError (msgSlideMissing slide_data k)))
      | .error e => (p, some e)
      | .ok slide_content =>
        match slide_type with
        | .str t =>
          if t = "title" then (addTitleSlide p slide_title slide_content, none)
          else if t = "text" then (addTextSlide p slide_title slide_content, none)
          else if t = "list" then addListSlide p slide_title slide_content
          else if t = "picture" then addImgSlide env p slide_title slide_content
          else if t = "plot" then
            match getKey slide_data "configuration" with
            | .error (.keyError k) => (p, some (.keyError (msgPlotMissing slide_data k)))
            | .error e => (p, some e)
            | .ok slide_config =>
              match getKey slide_config "x-label" with
              | .error (.keyError k) => (p, some (.keyError (msgPlotMissing slide_data k)))
              | .error e => (p, some e)
              | .ok x_label =>
                match getKey slide_config "y-label" with
                | .error (.keyError k) => (p, some (.keyError (msgPlotMissing slide_data k)))
                | .error e => (p, some e)
                | .ok y_label => addPlotSlide env p slide_title slide_content x_label y_label
          else (p, some (.valueError (msgInvalidType slide_type slide_data)))
        | _ => (p, some (.valueError (msgInvalidType slide_type slide_data)))

/-- The `for slide_data in json_root` loop of `makePresentation`: slides are
processed in order; the first error aborts the loop, keeping the slides
appended so far. -/
def slidesLoop (env : Env) (p : Document) : List JSON → Document × Option PyError
  | [] => (p, none)
  | sd :: rest =>
    match processSlide env p sd with
    | (p2, some e) => (p2, some e)
    | (p2, none) => slidesLoop env p2 rest

/-- Function `makePresentation` (pptx_maker.py lines 235-291): start from an empty
document, look up the top-level `presentation` key (a KeyError is re-raised
with a fixed message), and run the slide loop over its value. -/
def makePresentation (env : Env) (json_data : JSON) : Document × Option PyError :=
  match getKey json_data "presentation" with
  | .error (.keyError _) => ([], some (.keyError msgTopMissing))
  | .error e => ([], some e)
  | .ok json_root =>
    match pyIter json_root with
    | .error e => ([], some e)
    | .ok sds => slidesLoop env [] sds

/-- Specification-side view of one stripped data line: exactly two tokens
that both parse as floats. -/
def wellFormedLine (l : String) : Bool :=
  match pySplitSemi l with
  | [a, b] => (pyFloatOfString a).isSome && (pyFloatOfString b).isSome
  | _ => false

/-- A stripped line that is neither blank nor well formed. -/
def isBadLine (l : String) : Bool := !(l == "") && !(wellFormedLine l)

/-- The (x, y) pair a stripped line contributes, if any. -/
def parsePairOfLine (l : String) : Option (PyFloat × PyFloat) :=
  if l == "" then none
  else
    match pySplitSemi l with
    | [a, b] =>
      match pyFloatOfString a, pyFloatOfString b with
      | some x, some y => some (x, y)
      | _, _ => none
    | _ => none

/-- The format-error message the reader produces for a given bad stripped
line: the token count is checked before the conversions. -/
def badLineMsg (fp l : String) : String :=
  if (pySplitSemi l).length == 2 then msgLineFloat l fp else msgLineCount l fp

/-- Whether a dict value carries a key. -/
def hasKey (j : JSON) (k : String) : Bool :=
  match getKey j k with
  | .ok _ => true
  | .error _ => false

/-- The value of a key, defaulting to null (used only under `hasKey`). -/
def keyD (j : JSON) (k : String) : JSON :=
  match getKey j k with
  | .ok v => v
  | .error _ => .null

/-- A list item the list-slide builder accepts: a dict with a `level` that
`int`-converts to a positive integer, and a `text` key. -/
def listItemOk (item : JSON) : Bool :=
  match item with
  | .obj _ =>
    match getKey item "level" with
    | .ok v =>
      match pyInt v with
      | .ok n => decide (0 < n) && hasKey item "text"
      | .error _ => false
    | .error _ => false
  | _ => false

/-- The paragraph an accepted list item renders to: its text at indentation
level `int(level) - 1`. -/
def paraOf (item : JSON) : JSON × Int :=
  (keyD item "text",
    (match pyInt (keyD item "level") with
     | .ok n => n
     | .error _ => 0) - 1)

/-- A slide descriptor the assembler converts without error in environment
`env`: it carries `type`, `title` and `content`, its type is one of the five
recognized strings, list content is a list of accepted items, picture
content names a valid image, and plot content has a full configuration and
names a readable, well-formed data file. -/
def wellFormedSlide (env : Env) (sd : JSON) : Bool :=
  match getKey sd "type", getKey sd "title", getKey sd "content" with
  | .ok (.str t), .ok _, .ok c =>
    if t == "title" || t == "text" then true
    else if t == "list" then
      match c with
      | .arr items => items.all listItemOk
      | _ => false
    else if t == "picture" then
      match c with
      | .str path => env.images path == ImgStat.valid
      | _ => false
    else if t == "plot" then
      (match getKey sd "configuration" with
       | .ok cfg =>
         match getKey cfg "x-label", getKey cfg "y-label" with
         | .ok _, .ok _ => true
         | _, _ => false
       | .error _ => false)
      &&
      (match c with
       | .str path =>
         match env.files path with
         | some lines => ((lines.map pyStrip).find? isBadLine).isNone
         | none => false
       | _ => false)
    else false
  | _, _, _ => false

/-- The data points a plot content contributes in environment `env`. -/
def dataOf (env : Env) (c : JSON) : List (PyFloat × PyFloat) :=
  match c with
  | .str path =>
    match env.files path with
    | some lines => (lines.map pyStrip).filterMap parsePairOfLine
    | none => []
  | _ => []

/-- The slide a well-formed descriptor converts to. -/
def slideOf (env : Env) (sd : JSON) : Slide :=
  let t : String :=
    match keyD sd "type" with
    | .str t => t
    | _ => ""
  let title := keyD sd "title"
  let c := keyD sd "content"
  if t == "title" then .titleSlide title c
  else if t == "text" then .textSlide title c
  else if t == "list" then
    .listSlide title
      ((match c with
        | .arr items => items
        | _ => []).map paraOf)
  else if t == "picture" then
    .pictureSlide title
      (some
        (match c with
         | .str s => s
         | _ => ""))
  else
    .plotSlide title
      (some (stableSortLt pyTupleLt (dataOf env c),
        keyD (keyD sd "configuration") "x-label",
        keyD (keyD sd "configuration") "y-label"))

/-- The argument of a raised KeyError, if the raised error is one. -/
def keyErrOf : Option PyError → Option String
  | some (.keyError m) => some m
  | _ => none

/-- Specification-side walk of the items of a list slide, returning the key
whose absence makes the builder raise a KeyError: the first item that is a
dict without `level`, or with an accepted positive level but no `text`;
items failing earlier for other reasons (not a dict, unconvertible or
non-positive level) abort the walk without a KeyError. -/
def walkItems : List JSON → Option String
  | [] => none
  | item :: rest =>
    match item with
    | .obj _ =>
      if !(hasKey item "level") then some "level"
      else
        match pyInt (keyD item "level") with
        | .error _ => none
        | .ok n =>
          if n ≤ 0 then none
          else if !(hasKey item "text") then some "text"
          else walkItems rest
    | _ => none

/-- Specification-side enumeration of the missing-key errors one slide
descriptor produces, with the message argument of the raised KeyError:
first the required `type`/`title`/`content` in that order; then, for a plot
slide, the `configuration` key and its `x-label`/`y-label`; then, for a list
slide, the keys of its items. -/
def slideMissingKeySpec (sd : JSON) : Option String :=
  match sd with
  | .obj _ =>
    if !(hasKey sd "type") then some (msgSlideMissing sd "type")
    else if !(hasKey sd "title") then some (msgSlideMissing sd "title")
    else if !(hasKey sd "content") then some (msgSlideMissing sd "content")
    else
      match keyD sd "type" with
      | .str t =>
        if t = "plot" then
          if !(hasKey sd "configuration") then some (msgPlotMissing sd "configuration")
          else
            match keyD sd "configuration" with
            | .obj _ =>
              if !(hasKey (keyD sd "configuration") "x-label") then some (msgPlotMissing sd "x-label")
              else if !(hasKey (keyD sd "configuration") "y-label") then some (msgPlotMissing sd "y-label")
              else none
            | _ => none
        else if t = "list" then
          match keyD sd "content" with
          | .arr items => walkItems items
          | _ => none
        else none
      | _ => none
  | _ => none

lemma pyLt_trans {a b c : PyFloat} (h1 : pyLt a b = true) (h2 : pyLt b c = true) :
    pyLt a c = true := by
  cases a <;> cases b <;> cases c <;>
    simp_all [pyLt] <;>
    exact lt_trans h1 h2

lemma pyLt_asymm {a b : PyFloat} (h : pyLt a b = true) : pyLt b a = false := by
  cases a <;> cases b <;>
    simp_all [pyLt] <;>
    exact le_of_lt h

lemma pyEqF_symm (a b : PyFloat) : pyEqF a b = pyEqF b a := by
  cases a <;> cases b <;> simp [pyEqF] <;> exact ⟨Eq.symm, Eq.symm⟩

lemma pyEqF_trans {a b c : PyFloat} (h1 : pyEqF a b = true) (h2 : pyEqF b c = true) :
    pyEqF a c = true := by
  cases a <;> cases b <;> cases c <;> simp_all [pyEqF]

lemma pyLt_congr_left {a b c : PyFloat} (h : pyEqF a b = true) : pyLt b c = pyLt a c := by
  cases a <;> cases b <;> simp_all [pyEqF]

lemma pyLt_congr_right {a b c : PyFloat} (h : pyEqF a b = true) : pyLt c a = pyLt c b := by
  cases a <;> cases b <;> simp_all [pyEqF]

lemma pyLt_ne {a b : PyFloat} (h : pyLt a b = true) : pyEqF a b = false := by
  cases a <;> cases b <;> simp_all [pyLt, pyEqF]
  exact ne_of_lt h

lemma pyTupleLt_trans {p q r : PyFloat × PyFloat} (h1 : pyTupleLt p q = true)
    (h2 : pyTupleLt q r = true) : pyTupleLt p r = true := by
  unfold pyTupleLt at h1 h2 ⊢
  cases hpq : pyEqF p.1 q.1 <;> cases hqr : pyEqF q.1 r.1 <;>
      simp only [hpq, hqr, Bool.not_false, Bool.not_true, if_true, if_false] at h1 h2
  · have hl : pyLt p.1 r.1 = true := pyLt_trans h1 h2
    simp [pyLt_ne hl, hl]
  · have hl : pyLt p.1 r.1 = true := (pyLt_congr_right hqr).symm ▸ h1
    simp [pyLt_ne hl, hl]
  · have hl : pyLt p.1 r.1 = true := (pyLt_congr_left hpq) ▸ h2
    simp [pyLt_ne hl, hl]
  · have h1r : pyEqF p.1 r.1 = true := pyEqF_trans hpq hqr
    cases hpq2 : pyEqF p.2 q.2 <;> cases hqr2 : pyEqF q.2 r.2 <;>
        simp only [hpq2, hqr2, Bool.not_false, Bool.not_true, if_true, if_false] at h1 h2
    · have hl : pyLt p.2 r.2 = true := pyLt_trans h1 h2
      simp [h1r, pyLt_ne hl, hl]
    · have hl : pyLt p.2 r.2 = true := (pyLt_congr_right hqr2).symm ▸ h1
      simp [h1r, pyLt_ne hl, hl]
    · have hl : pyLt p.2 r.2 = true := (pyLt_congr_left hpq2) ▸ h2
      simp [h1r, pyLt_ne hl, hl]
    · simp at h1

lemma pyTupleLt_asymm {p q : PyFloat × PyFloat} (h : pyTupleLt p q = true) :
    pyTupleLt q p = false := by
  unfold pyTupleLt at h ⊢
  cases hpq : pyEqF p.1 q.1 <;>
      simp only [hpq, Bool.not_false, Bool.not_true, if_true, if_false] at h
  · rw [pyEqF_symm] at hpq
    simp [hpq, pyLt_asymm h]
  · cases hpq2 : pyEqF p.2 q.2 <;>
        simp only [hpq2, Bool.not_false, Bool.not_true, if_true, if_false] at h
    · have h1 : pyEqF q.1 p.1 = true := by rw [pyEqF_symm] at hpq; exact hpq
      have h2 : pyEqF q.2 p.2 = false := by rw [pyEqF_symm] at hpq2; exact hpq2
      simp [h1, h2, pyLt_asymm h]
    · simp at h

lemma stableInsertLt_perm {α : Type} (lt : α → α → Bool) (x : α) (l : List α) :
    (stableInsertLt lt x l).Perm (x :: l) := by
  induction l with
  | nil => exact List.Perm.refl _
  | cons y ys ih =>
    simp only [stableInsertLt]
    split
    · exact List.Perm.refl _
    · exact (ih.cons y).trans (List.Perm.swap x y ys)

lemma foldl_stableInsert_perm {α : Type} (lt : α → α → Bool) :
    ∀ (l acc : List α),
      (l.foldl (fun acc x => stableInsertLt lt x acc) acc).Perm (acc ++ l)
  | [], acc => by simp
  | x :: xs, acc => by
    have step := foldl_stableInsert_perm lt xs (stableInsertLt lt x acc)
    simp only [List.foldl_cons]
    refine step.trans ?_
    have h1 : (stableInsertLt lt x acc ++ xs).Perm ((x :: acc) ++ xs) :=
      (stableInsertLt_perm lt x acc).append_right xs
    refine h1.trans ?_
    exact List.perm_middle.symm

lemma stableSortLt_perm {α : Type} (lt : α → α → Bool) (l : List α) :
    (stableSortLt lt l).Perm l := by
  simpa using foldl_stableInsert_perm lt l []

lemma mem_stableInsertLt {α : Type} {lt : α → α → Bool} {x a : α} {l : List α}
    (h : a ∈ stableInsertLt lt x l) : a = x ∨ a ∈ l := by
  have := (stableInsertLt_perm lt x l).mem_iff.mp h
  simpa using this

lemma stableInsertLt_pairwise {α : Type} {lt : α → α → Bool}
    (htrans : ∀ a b c, lt a b = true → lt b c = true → lt a c = true)
    (hasym : ∀ a b, lt a b = true → lt b a = false) (x : α) {l : List α}
    (h : l.Pairwise fun a b => lt b a = false) :
    (stableInsertLt lt x l).Pairwise fun a b => lt b a = false := by
  induction l with
  | nil => simp [stableInsertLt]
  | cons y ys ih =>
    rw [List.pairwise_cons] at h
    obtain ⟨hy, hys⟩ := h
    simp only [stableInsertLt]
    split
    · rename_i hxy
      rw [List.pairwise_cons]
      constructor
      · intro b hb
        rcases List.mem_cons.mp hb with hb | hb
        · rw [hb]; exact hasym x y hxy
        · cases hbx : lt b x with
          | false => rfl
          | true => exact absurd (htrans b x y hbx hxy) (by simp [hy b hb])
      · rw [List.pairwise_cons]; exact ⟨hy, hys⟩
    · rename_i hxy
      rw [List.pairwise_cons]
      constructor
      · intro b hb
        rcases mem_stableInsertLt hb with hb | hb
        · subst hb; simpa using hxy
        · exact hy b hb
      · exact ih hys

lemma foldl_stableInsert_pairwise {α : Type} {lt : α → α → Bool}
    (htrans : ∀ a b c, lt a b = true → lt b c = true → lt a c = true)
    (hasym : ∀ a b, lt a b = true → lt b a = false) :
    ∀ (l acc : List α), (acc.Pairwise fun a b => lt b a = false) →
      (l.foldl (fun acc x => stableInsertLt lt x acc) acc).Pairwise
        fun a b => lt b a = false
  | [], _, hacc => hacc
  | x :: xs, acc, hacc => by
    simp only [List.foldl_cons]
    exact foldl_stableInsert_pairwise htrans hasym xs _
      (stableInsertLt_pairwise htrans hasym x hacc)

lemma stableSortLt_pairwise {α : Type} {lt : α → α → Bool}
    (htrans : ∀ a b c, lt a b = true → lt b c = true → lt a c = true)
    (hasym : ∀ a b, lt a b = true → lt b a = false) (l : List α) :
    (stableSortLt lt l).Pairwise fun a b => lt b a = false :=
  foldl_stableInsert_pairwise htrans hasym l [] (by simp)

lemma wellFormedLine_elim {l : String} (h : wellFormedLine l = true) :
    ∃ a b x y, pySplitSemi l = [a, b] ∧ pyFloatOfString a = some x ∧ pyFloatOfString b = some y := by
  unfold wellFormedLine at h
  rcases hs : pySplitSemi l with _ | ⟨a, _ | ⟨b, _ | _⟩⟩ <;> rw [hs] at h
  · simp at h
  · simp at h
  · simp only [Bool.and_eq_true, Option.isSome_iff_exists] at h
    obtain ⟨⟨x, hx⟩, ⟨y, hy⟩⟩ := h
    exact ⟨a, b, x, y, rfl, hx, hy⟩
  · simp at h

lemma readDataAux_ok : ∀ (lines : List String) (fp : String) (data : List (PyFloat × PyFloat)),
    (lines.map pyStrip).find? isBadLine = none →
    readDataAux fp data lines = .ok (data ++ (lines.map pyStrip).filterMap parsePairOfLine)
  | [], fp, data, _ => by simp [readDataAux]
  | line :: rest, fp, data, hfind => by
    simp only [List.map_cons, List.find?_cons] at hfind
    cases hbad : isBadLine (pyStrip line) with
    | true => rw [hbad] at hfind; exact absurd hfind (by simp)
    | false =>
      rw [hbad] at hfind
      simp only [readDataAux]
      cases hblank : pyStrip line == "" with
      | true =>
        have hpair : parsePairOfLine (pyStrip line) = none := by
          simp only [parsePairOfLine, hblank, if_true]
        rw [if_pos rfl]
        rw [readDataAux_ok rest fp data hfind]
        simp [hpair]
      | false =>
        have hwf : wellFormedLine (pyStrip line) = true := by
          simp only [isBadLine, hblank] at hbad
          simpa using hbad
        rw [if_neg (by simp [hblank])]
        obtain ⟨a, b, x, y, hsplit, hx, hy⟩ := wellFormedLine_elim hwf
        rw [hsplit]
        simp only [hx, hy]
        have hpair : parsePairOfLine (pyStrip line) = some (x, y) := by
          simp [parsePairOfLine, hblank, hsplit, hx, hy]
        rw [readDataAux_ok rest fp (data ++ [(x, y)]) hfind]
        simp [hpair]

lemma readDataAux_err : ∀ (lines : List String) (fp : String) (data : List (PyFloat × PyFloat))
    (l : String), (lines.map pyStrip).find? isBadLine = some l →
    readDataAux fp data lines = .error (.valueError (badLineMsg fp l))
  | [], _, _, _, hfind => by simp at hfind
  | line :: rest, fp, data, l, hfind => by
    simp only [List.map_cons, List.find?_cons] at hfind
    cases hbad : isBadLine (pyStrip line) with
    | false =>
      rw [hbad] at hfind
      simp only [readDataAux]
      cases hblank : pyStrip line == "" with
      | true =>
        rw [if_pos rfl]
        exact readDataAux_err rest fp data l hfind
      | false =>
        have hwf : wellFormedLine (pyStrip line) = true := by
          simp only [isBadLine, hblank] at hbad
          simpa using hbad
        rw [if_neg (by simp [hblank])]
        obtain ⟨a, b, x, y, hsplit, hx, hy⟩ := wellFormedLine_elim hwf
        rw [hsplit]
        simp only [hx, hy]
        exact readDataAux_err rest fp (data ++ [(x, y)]) l hfind
    | true =>
      rw [hbad] at hfind
      simp only [Option.some.injEq] at hfind
      subst hfind
      have hne : (pyStrip line == "") = false := by
        rcases Bool.and_eq_true _ _ |>.mp hbad with ⟨h1, _⟩
        simpa using h1
      have hnwf : wellFormedLine (pyStrip line) = false := by
        rcases Bool.and_eq_true _ _ |>.mp hbad with ⟨_, h2⟩
        simpa using h2
      simp only [readDataAux]
      rw [if_neg (by simp [hne])]
      unfold wellFormedLine at hnwf
      rcases hsplit : pySplitSemi (pyStrip line) with _ | ⟨a, _ | ⟨b, _ | _⟩⟩ <;>
        rw [hsplit] at hnwf
      · simp [badLineMsg, hsplit]
      · simp [badLineMsg, hsplit]
      · have hmsg : badLineMsg fp (pyStrip line) = msgLineFloat (pyStrip line) fp := by
          simp [badLineMsg, hsplit]
        rw [hmsg]
        cases hxa : pyFloatOfString a with
        | none => simp [hxa]
        | some xx =>
          cases hxb : pyFloatOfString b with
          | none => simp [hxa, hxb]
          | some yy => simp [hxa, hxb] at hnwf
      · simp [badLineMsg, hsplit]

lemma readDataAux_append : ∀ (lines : List String) (fp : String) (data : List (PyFloat × PyFloat)),
    readDataAux fp data lines = (readDataAux fp [] lines).map (fun d => data ++ d)
  | [], fp, data => by simp [readDataAux, Except.map]
  | line :: rest, fp, data => by
    simp only [readDataAux]
    cases hblank : pyStrip line == "" with
    | true =>
      rw [if_pos rfl, if_pos rfl]
      exact readDataAux_append rest fp data
    | false =>
      rw [if_neg (by simp [hblank]), if_neg (by simp [hblank])]
      rcases hsplit : pySplitSemi (pyStrip line) with _ | ⟨a, _ | ⟨b, _ | _⟩⟩ <;> simp only
      · rfl
      · rfl
      · cases hxa : pyFloatOfString a with
        | none => rfl
        | some x =>
          cases hxb : pyFloatOfString b with
          | none => rfl
          | some y =>
            show readDataAux fp (data ++ [(x, y)]) rest =
              Except.map (fun d => data ++ d) (readDataAux fp ([] ++ [(x, y)]) rest)
            rw [readDataAux_append rest fp (data ++ [(x, y)]),
              readDataAux_append rest fp ([] ++ [(x, y)])]
            cases readDataAux fp [] rest <;> simp [Except.map]
      · rfl

lemma isValidImage_ok (env : Env) (p : String) :
    isValidImage env p = .ok (env.images p == ImgStat.valid) := by
  unfold isValidImage pilOpenVerify
  cases env.images p <;> rfl

lemma readDataAux_error_shape : ∀ (lines : List String) (fp : String)
    (data : List (PyFloat × PyFloat)) (e : PyError),
    readDataAux fp data lines = .error e → ∃ m, e = .valueError m
  | [], _, _, _, h => by simp [readDataAux] at h
  | line :: rest, fp, data, e, h => by
    simp only [readDataAux] at h
    cases hblank : pyStrip line == "" with
    | true =>
      rw [if_pos (by rw [hblank])] at h
      exact readDataAux_error_shape rest fp data e h
    | false =>
      rw [if_neg (by simp [hblank])] at h
      rcases hsplit : pySplitSemi (pyStrip line) with _ | ⟨a, _ | ⟨b, _ | _⟩⟩ <;>
          rw [hsplit] at h <;> simp only at h
      · injection h with h2; exact ⟨_, h2.symm⟩
      · injection h with h2; exact ⟨_, h2.symm⟩
      · cases hxa : pyFloatOfString a with
        | none => rw [hxa] at h; injection h with h2; exact ⟨_, h2.symm⟩
        | some x =>
          rw [hxa] at h
          cases hxb : pyFloatOfString b with
          | none => rw [hxb] at h; injection h with h2; exact ⟨_, h2.symm⟩
          | some y =>
            rw [hxb] at h
            exact readDataAux_error_shape rest fp (data ++ [(x, y)]) e h
      · injection h with h2; exact ⟨_, h2.symm⟩

lemma readDataFileFS_error_shape {env : Env} {fp : String} {e : PyError}
    (h : readDataFileFS env fp = .error e) :
    (∃ m, e = .valueError m) ∨ e = .fileNotFoundError fp := by
  unfold readDataFileFS at h
  cases hf : env.files fp with
  | none =>
    rw [hf] at h
    right
    injection h with h2
    exact h2.symm
  | some lines =>
    rw [hf] at h
    left
    exact readDataAux_error_shape lines fp [] e h

lemma listItemOk_elim {item : JSON} (h : listItemOk item = true) :
    ∃ v n t, getKey item "level" = .ok v ∧ pyInt v = .ok n ∧ 0 < n ∧
      getKey item "text" = .ok t := by
  cases item with
  | obj kvs =>
    unfold listItemOk at h
    cases hkl : getKey (.obj kvs) "level" with
    | error e => rw [hkl] at h; simp at h
    | ok v =>
      rw [hkl] at h
      replace h : (match pyInt v with
        | .ok n => decide (0 < n) && hasKey (.obj kvs) "text"
        | .error _ => false) = true := h
      cases hki : pyInt v with
      | error e => rw [hki] at h; simp at h
      | ok n =>
        rw [hki] at h
        simp only [Bool.and_eq_true, decide_eq_true_eq] at h
        obtain ⟨hn, ht⟩ := h
        unfold hasKey at ht
        cases hkt : getKey (.obj kvs) "text" with
        | error e => rw [hkt] at ht; simp at ht
        | ok t => exact ⟨v, n, t, rfl, hki, hn, rfl⟩
  | null => simp [listItemOk] at h
  | bool b => simp [listItemOk] at h
  | int n => simp [listItemOk] at h
  | float f => simp [listItemOk] at h
  | str s => simp [listItemOk] at h
  | arr xs => simp [listItemOk] at h

lemma listLoop_ok : ∀ (items : List JSON) (title : JSON) (acc : List (JSON × Int)),
    items.all listItemOk = true →
    listLoop title items acc = (acc ++ items.map paraOf, none)
  | [], title, acc, _ => by simp [listLoop]
  | item :: rest, title, acc, hall => by
    rw [List.all_cons, Bool.and_eq_true] at hall
    obtain ⟨hok, hrest⟩ := hall
    obtain ⟨v, n, t, hkl, hki, hn, hkt⟩ := listItemOk_elim hok
    have hpara : paraOf item = (t, n - 1) := by
      simp [paraOf, keyD, hkl, hki, hkt]
    simp only [listLoop, hkl, hki, hkt]
    rw [if_neg (by simp [hn])]
    rw [listLoop_ok rest title (acc ++ [(t, n - 1)]) hrest]
    simp [hpara]

lemma pyInt_no_keyError {v : JSON} {e : PyError} (h : pyInt v = .error e) :
    keyErrOf (some e) = none := by
  cases v with
  | null => simp only [pyInt] at h; injection h with h2; rw [← h2]; rfl
  | bool b => simp [pyInt] at h
  | int n => simp [pyInt] at h
  | float f =>
    cases f with
    | finite q => simp [pyInt] at h
    | inf b => simp only [pyInt] at h; injection h with h2; rw [← h2]; rfl
    | nan => simp only [pyInt] at h; injection h with h2; rw [← h2]; rfl
  | str s =>
    simp only [pyInt] at h
    cases hp : pyIntOfString s with
    | some n => rw [hp] at h; simp at h
    | none => rw [hp] at h; injection h with h2; rw [← h2]; rfl
  | arr xs => simp only [pyInt] at h; injection h with h2; rw [← h2]; rfl
  | obj kvs => simp only [pyInt] at h; injection h with h2; rw [← h2]; rfl

lemma listLoop_keyErr : ∀ (items : List JSON) (title : JSON) (acc : List (JSON × Int)),
    keyErrOf (listLoop title items acc).2 = walkItems items
  | [], title, acc => by simp [listLoop, walkItems, keyErrOf]
  | item :: rest, title, acc => by
    cases item with
    | obj kvs =>
      cases hkl : getKey (.obj kvs) "level" with
      | error e =>
        have he : e = .keyError "level" := by
          have hkl2 : (match kvs.lookup "level" with
            | some w => (.ok w : Except PyError JSON)
            | none => .error (.keyError "level")) = .error e := hkl
          cases hlook : kvs.lookup "level" with
          | some w => rw [hlook] at hkl2; simp at hkl2
          | none => rw [hlook] at hkl2; injection hkl2 with h2; exact h2.symm
        subst he
        have hhk : hasKey (.obj kvs) "level" = false := by simp [hasKey, hkl]
        simp [listLoop, walkItems, hkl, hhk, keyErrOf]
      | ok v =>
        have hhk : hasKey (.obj kvs) "level" = true := by simp [hasKey, hkl]
        have hkd : keyD (.obj kvs) "level" = v := by simp [keyD, hkl]
        cases hki : pyInt v with
        | error e =>
          simp [listLoop, walkItems, hkl, hhk, hkd, hki, pyInt_no_keyError hki]
        | ok n =>
          by_cases hn : 0 < n
          · have hn2 : ¬ (n ≤ 0) := by omega
            cases hkt : getKey (.obj kvs) "text" with
            | error e =>
              have he : e = .keyError "text" := by
                have hkt2 : (match kvs.lookup "text" with
                  | some w => (.ok w : Except PyError JSON)
                  | none => .error (.keyError "text")) = .error e := hkt
                cases hlook : kvs.lookup "text" with
                | some w => rw [hlook] at hkt2; simp at hkt2
                | none => rw [hlook] at hkt2; injection hkt2 with h2; exact h2.symm
              subst he
              have hhkt : hasKey (.obj kvs) "text" = false := by simp [hasKey, hkt]
              simp [listLoop, walkItems, hkl, hhk, hkd, hki, hkt, hhkt, hn, hn2, keyErrOf]
            | ok t =>
              have hhkt : hasKey (.obj kvs) "text" = true := by simp [hasKey, hkt]
              have ih := listLoop_keyErr rest title (acc ++ [(t, n - 1)])
              simp [listLoop, walkItems, hkl, hhk, hkd, hki, hkt, hhkt, hn, hn2, ih]
          · have hn2 : n ≤ 0 := by omega
            simp [listLoop, walkItems, hkl, hhk, hkd, hki, hn, hn2, keyErrOf]
    | null => simp [listLoop, walkItems, getKey, keyErrOf]
    | bool b => simp [listLoop, walkItems, getKey, keyErrOf]
    | int n => simp [listLoop, walkItems, getKey, keyErrOf]
    | float f => simp [listLoop, walkItems, getKey, keyErrOf]
    | str s => simp [listLoop, walkItems, getKey, keyErrOf]
    | arr xs => simp [listLoop, walkItems, getKey, keyErrOf]

lemma listLoop_nonpos : ∀ (pre : List JSON) (title item : JSON) (rest : List JSON)
    (acc : List (JSON × Int)) (v : JSON) (n : Int),
    pre.all listItemOk = true → getKey item "level" = .ok v → pyInt v = .ok n → n ≤ 0 →
    listLoop title (pre ++ item :: rest) acc =
      (acc ++ pre.map paraOf, some (.valueError (msgListLevel item title)))
  | [], title, item, rest, acc, v, n, _, hkl, hki, hn => by
    simp only [List.nil_append, listLoop, hkl, hki]
    rw [if_pos (by simp; omega)]
    simp
  | p :: pre, title, item, rest, acc, v, n, hall, hkl, hki, hn => by
    rw [List.all_cons, Bool.and_eq_true] at hall
    obtain ⟨hok, hrest⟩ := hall
    obtain ⟨pv, pn, pt, hpkl, hpki, hpn, hpkt⟩ := listItemOk_elim hok
    have hpara : paraOf p = (pt, pn - 1) := by
      simp [paraOf, keyD, hpkl, hpki, hpkt]
    simp only [List.cons_append, listLoop, hpkl, hpki, hpkt]
    rw [if_neg (by simp [hpn])]
    rw [List.append_eq, listLoop_nonpos pre title item rest (acc ++ [(pt, pn - 1)]) v n hrest hkl hki hn]
    simp [hpara]

lemma getKey_obj_error {kvs : List (String × JSON)} {k : String} {e : PyError}
    (h : getKey (.obj kvs) k = .error e) : e = .keyError k := by
  have h2 : (match kvs.lookup k with
    | some w => (.ok w : Except PyError JSON)
    | none => .error (.keyError k)) = .error e := h
  cases hlook : kvs.lookup k with
  | some w => rw [hlook] at h2; simp at h2
  | none => rw [hlook] at h2; injection h2 with h3; exact h3.symm

lemma addListSlide_keyErr (p : Document) (t c : JSON) :
    keyErrOf (addListSlide p t c).2 =
      (match c with
       | .arr items => walkItems items
       | _ => none) := by
  cases c with
  | arr items =>
    simp only [addListSlide, pyIter]
    exact listLoop_keyErr items t []
  | str s =>
    simp only [addListSlide, pyIter]
    rw [listLoop_keyErr]
    cases hd : s.data with
    | nil => simp [walkItems]
    | cons ch rest => simp [walkItems]
  | obj kvs =>
    simp only [addListSlide, pyIter]
    rw [listLoop_keyErr]
    cases kvs with
    | nil => simp [walkItems]
    | cons kv rest => simp [walkItems]
  | null => simp [addListSlide, pyIter, keyErrOf]
  | bool b => simp [addListSlide, pyIter, keyErrOf]
  | int n => simp [addListSlide, pyIter, keyErrOf]
  | float f => simp [addListSlide, pyIter, keyErrOf]

lemma addImgSlide_keyErr (env : Env) (p : Document) (t c : JSON) :
    keyErrOf (addImgSlide env p t c).2 = none := by
  cases c with
  | str path =>
    simp only [addImgSlide, isValidImage_ok]
    cases env.images path == ImgStat.valid <;> simp [keyErrOf]
  | null => rfl
  | bool b => rfl
  | int n => rfl
  | float f => rfl
  | arr xs => rfl
  | obj kvs => rfl

lemma addPlotSlide_keyErr (env : Env) (p : Document) (t c xl yl : JSON) :
    keyErrOf (addPlotSlide env p t c xl yl).2 = none := by
  cases c with
  | str path =>
    simp only [addPlotSlide]
    cases hr : readDataFileFS env path with
    | ok d => simp [keyErrOf]
    | error e =>
      rcases readDataFileFS_error_shape hr with ⟨m, hm⟩ | hm <;> subst hm <;> simp [keyErrOf]
  | null => rfl
  | bool b => rfl
  | int n => rfl
  | float f => rfl
  | arr xs => rfl
  | obj kvs => rfl

lemma processSlide_keyErr (env : Env) (p : Document) (sd : JSON) :
    keyErrOf (processSlide env p sd).2 = slideMissingKeySpec sd := by
  cases sd with
  | obj kvs =>
    cases hty : getKey (.obj kvs) "type" with
    | error e =>
      have he := getKey_obj_error hty
      subst he
      have hhk : hasKey (.obj kvs) "type" = false := by simp [hasKey, hty]
      simp [processSlide, slideMissingKeySpec, hty, hhk, keyErrOf]
    | ok ty =>
      have hhty : hasKey (.obj kvs) "type" = true := by simp [hasKey, hty]
      have hkdty : keyD (.obj kvs) "type" = ty := by simp [keyD, hty]
      cases htt : getKey (.obj kvs) "title" with
      | error e =>
        have he := getKey_obj_error htt
        subst he
        have hh : hasKey (.obj kvs) "title" = false := by simp [hasKey, htt]
        simp [processSlide, slideMissingKeySpec, hty, htt, hhty, hh, keyErrOf]
      | ok ti =>
        have hhtt : hasKey (.obj kvs) "title" = true := by simp [hasKey, htt]
        cases htc : getKey (.obj kvs) "content" with
        | error e =>
          have he := getKey_obj_error htc
          subst he
          have hh : hasKey (.obj kvs) "content" = false := by simp [hasKey, htc]
          simp [processSlide, slideMissingKeySpec, hty, htt, htc, hhty, hhtt, hh, keyErrOf]
        | ok c =>
          have hhtc : hasKey (.obj kvs) "content" = true := by simp [hasKey, htc]
          have hkdc : keyD (.obj kvs) "content" = c := by simp [keyD, htc]
          cases ty with
          | str t =>
            by_cases h1 : t = "title"
            · subst h1
              simp [processSlide, slideMissingKeySpec, hty, htt, htc, hhty, hhtt, hhtc,
                hkdty, keyErrOf]
            · by_cases h2 : t = "text"
              · subst h2
                simp [processSlide, slideMissingKeySpec, hty, htt, htc, hhty, hhtt, hhtc,
                  hkdty, keyErrOf]
              · by_cases h3 : t = "list"
                · subst h3
                  simp [processSlide, slideMissingKeySpec, hty, htt, htc, hhty, hhtt, hhtc,
                    hkdty, hkdc, addListSlide_keyErr]
                · by_cases h4 : t = "picture"
                  · subst h4
                    simp [processSlide, slideMissingKeySpec, hty, htt, htc, hhty, hhtt, hhtc,
                      hkdty, addImgSlide_keyErr]
                  · by_cases h5 : t = "plot"
                    · subst h5
                      cases hcfg : getKey (.obj kvs) "configuration" with
                      | error e =>
                        have he := getKey_obj_error hcfg
                        subst he
                        have hh : hasKey (.obj kvs) "configuration" = false := by
                          simp [hasKey, hcfg]
                        simp [processSlide, slideMissingKeySpec, hty, htt, htc, hhty, hhtt,
                          hhtc, hkdty, hcfg, hh, keyErrOf]
                      | ok cfg =>
                        have hhcfg : hasKey (.obj kvs) "configuration" = true := by
                          simp [hasKey, hcfg]
                        have hkdcfg : keyD (.obj kvs) "configuration" = cfg := by
                          simp [keyD, hcfg]
                        cases cfg with
                        | obj ckvs =>
                          cases hx : getKey (.obj ckvs) "x-label" with
                          | error e =>
                            have he := getKey_obj_error hx
                            subst he
                            have hh : hasKey (.obj ckvs) "x-label" = false := by
                              simp [hasKey, hx]
                            simp [processSlide, slideMissingKeySpec, hty, htt, htc, hhty,
                              hhtt, hhtc, hkdty, hcfg, hhcfg, hkdcfg, hx, hh, keyErrOf]
                          | ok xl =>
                            have hhx : hasKey (.obj ckvs) "x-label" = true := by
                              simp [hasKey, hx]
                            cases hy : getKey (.obj ckvs) "y-label" with
                            | error e =>
                              have he := getKey_obj_error hy
                              subst he
                              have hh : hasKey (.obj ckvs) "y-label" = false := by
                                simp [hasKey, hy]
                              simp [processSlide, slideMissingKeySpec, hty, htt, htc, hhty,
                                hhtt, hhtc, hkdty, hcfg, hhcfg, hkdcfg, hx, hhx, hy, hh,
                                keyErrOf]
                            | ok yl =>
                              have hhy : hasKey (.obj ckvs) "y-label" = true := by
                                simp [hasKey, hy]
                              simp [processSlide, slideMissingKeySpec, hty, htt, htc, hhty,
                                hhtt, hhtc, hkdty, hcfg, hhcfg, hkdcfg, hx, hhx, hy, hhy,
                                addPlotSlide_keyErr]
                        | null =>
                          have hxv : getKey JSON.null "x-label" =
                              Except.error (.typeError "\x27NoneType\x27 object is not subscriptable") := rfl
                          simp [processSlide, slideMissingKeySpec, hty, htt, htc, hhty, hhtt,
                            hhtc, hkdty, hcfg, hhcfg, hkdcfg, hxv, keyErrOf]
                        | bool b =>
                          have hxv : getKey (JSON.bool b) "x-label" =
                              Except.error (.typeError "\x27bool\x27 object is not subscriptable") := rfl
                          simp [processSlide, slideMissingKeySpec, hty, htt, htc, hhty, hhtt,
                            hhtc, hkdty, hcfg, hhcfg, hkdcfg, hxv, keyErrOf]
                        | int n =>
                          have hxv : getKey (JSON.int n) "x-label" =
                              Except.error (.typeError "\x27int\x27 object is not subscriptable") := rfl
                          simp [processSlide, slideMissingKeySpec, hty, htt, htc, hhty, hhtt,
                            hhtc, hkdty, hcfg, hhcfg, hkdcfg, hxv, keyErrOf]
                        | float f =>
                          have hxv : getKey (JSON.float f) "x-label" =
                              Except.error (.typeError "\x27float\x27 object is not subscriptable") := rfl
                          simp [processSlide, slideMissingKeySpec, hty, htt, htc, hhty, hhtt,
                            hhtc, hkdty, hcfg, hhcfg, hkdcfg, hxv, keyErrOf]
                        | str s =>
                          have hxv : getKey (JSON.str s) "x-label" =
                              Except.error (.typeError "string indices must be integers") := rfl
                          simp [processSlide, slideMissingKeySpec, hty, htt, htc, hhty, hhtt,
                            hhtc, hkdty, hcfg, hhcfg, hkdcfg, hxv, keyErrOf]
                        | arr xs =>
                          have hxv : getKey (JSON.arr xs) "x-label" =
                              Except.error (.typeError "list indices must be integers or slices, not str") := rfl
                          simp [processSlide, slideMissingKeySpec, hty, htt, htc, hhty, hhtt,
                            hhtc, hkdty, hcfg, hhcfg, hkdcfg, hxv, keyErrOf]
                    · simp [processSlide, slideMissingKeySpec, hty, htt, htc, hhty, hhtt,
                        hhtc, hkdty, h1, h2, h3, h4, h5, keyErrOf]
          | null =>
            simp [processSlide, slideMissingKeySpec, hty, htt, htc, hhty, hhtt, hhtc, hkdty,
              keyErrOf]
          | bool b =>
            simp [processSlide, slideMissingKeySpec, hty, htt, htc, hhty, hhtt, hhtc, hkdty,
              keyErrOf]
          | int n =>
            simp [processSlide, slideMissingKeySpec, hty, htt, htc, hhty, hhtt, hhtc, hkdty,
              keyErrOf]
          | float f =>
            simp [processSlide, slideMissingKeySpec, hty, htt, htc, hhty, hhtt, hhtc, hkdty,
              keyErrOf]
          | arr xs =>
            simp [processSlide, slideMissingKeySpec, hty, htt, htc, hhty, hhtt, hhtc, hkdty,
              keyErrOf]
          | obj okvs =>
            simp [processSlide, slideMissingKeySpec, hty, htt, htc, hhty, hhtt, hhtc, hkdty,
              keyErrOf]
  | null => simp [processSlide, slideMissingKeySpec, getKey, keyErrOf]
  | bool b => simp [processSlide, slideMissingKeySpec, getKey, keyErrOf]
  | int n => simp [processSlide, slideMissingKeySpec, getKey, keyErrOf]
  | float f => simp [processSlide, slideMissingKeySpec, getKey, keyErrOf]
  | str s => simp [processSlide, slideMissingKeySpec, getKey, keyErrOf]
  | arr xs => simp [processSlide, slideMissingKeySpec, getKey, keyErrOf]

lemma processSlide_wf (env : Env) (p : Document) (sd : JSON)
    (h : wellFormedSlide env sd = true) :
    processSlide env p sd = (p ++ [slideOf env sd], none) := by
  unfold wellFormedSlide at h
  cases hty : getKey sd "type" with
  | error e => rw [hty] at h; simp at h
  | ok ty =>
    rw [hty] at h
    cases htt : getKey sd "title" with
    | error e => rw [htt] at h; simp at h
    | ok ti =>
      rw [htt] at h
      cases htc : getKey sd "content" with
      | error e => rw [htc] at h; simp at h
      | ok c =>
        rw [htc] at h
        cases ty with
        | str t =>
          have kt : keyD sd "type" = .str t := by simp [keyD, hty]
          have kti : keyD sd "title" = ti := by simp [keyD, htt]
          have kc : keyD sd "content" = c := by simp [keyD, htc]
          simp only [] at h
          by_cases h1 : t = "title"
          · subst h1
            simp [processSlide, slideOf, hty, htt, htc, kt, kti, kc, addTitleSlide]
          · by_cases h2 : t = "text"
            · subst h2
              simp [processSlide, slideOf, hty, htt, htc, kt, kti, kc, addTextSlide]
            · by_cases h3 : t = "list"
              · subst h3
                rw [if_neg (by simp), if_pos (by simp)] at h
                cases c with
                | arr items =>
                  simp only [] at h
                  simp [processSlide, hty, htt, htc, addListSlide, pyIter,
                    listLoop_ok items ti [] h, slideOf, kt, kti, kc]
                | null => simp at h
                | bool b => simp at h
                | int n => simp at h
                | float f => simp at h
                | str s => simp at h
                | obj kvs2 => simp at h
              · by_cases h4 : t = "picture"
                · subst h4
                  rw [if_neg (by simp), if_neg (by simp), if_pos (by simp)] at h
                  cases c with
                  | str path =>
                    simp only [] at h
                    simp [processSlide, hty, htt, htc, addImgSlide, isValidImage_ok, h,
                      slideOf, kt, kti, kc]
                  | null => simp at h
                  | bool b => simp at h
                  | int n => simp at h
                  | float f => simp at h
                  | arr xs => simp at h
                  | obj kvs2 => simp at h
                · by_cases h5 : t = "plot"
                  · subst h5
                    rw [if_neg (by simp), if_neg (by simp), if_neg (by simp),
                      if_pos (by simp)] at h
                    rw [Bool.and_eq_true] at h
                    obtain ⟨hcfg', hcont'⟩ := h
                    cases hcfg : getKey sd "configuration" with
                    | error e => rw [hcfg] at hcfg'; simp at hcfg'
                    | ok cfg =>
                      rw [hcfg] at hcfg'
                      simp only [] at hcfg'
                      cases hx : getKey cfg "x-label" with
                      | error e => rw [hx] at hcfg'; simp at hcfg'
                      | ok xl =>
                        rw [hx] at hcfg'
                        cases hy : getKey cfg "y-label" with
                        | error e => rw [hy] at hcfg'; simp at hcfg'
                        | ok yl =>
                          cases c with
                          | str path =>
                            simp only [] at hcont'
                            cases hf : env.files path with
                            | none => rw [hf] at hcont'; simp at hcont'
                            | some lines =>
                              rw [hf] at hcont'
                              rw [Option.isNone_iff_eq_none] at hcont'
                              have hread : readDataFileFS env path =
                                  .ok ((lines.map pyStrip).filterMap parsePairOfLine) := by
                                unfold readDataFileFS readDataFileLines
                                rw [hf]
                                simp only []
                                rw [readDataAux_ok lines path [] hcont']
                                simp
                              have kcfg : keyD sd "configuration" = cfg := by
                                simp [keyD, hcfg]
                              have kx : keyD cfg "x-label" = xl := by simp [keyD, hx]
                              have ky : keyD cfg "y-label" = yl := by simp [keyD, hy]
                              simp [processSlide, hty, htt, htc, hcfg, hx, hy,
                                addPlotSlide, hread, slideOf, kt, kti, kc, kcfg, kx, ky,
                                dataOf, hf, createPlotImage]
                          | null => simp at hcont'
                          | bool b => simp at hcont'
                          | int n => simp at hcont'
                          | float f => simp at hcont'
                          | arr xs => simp at hcont'
                          | obj kvs2 => simp at hcont'
                  · rw [if_neg (by simp [h1, h2]), if_neg (by simp [h3]),
                      if_neg (by simp [h4]), if_neg (by simp [h5])] at h
                    simp at h
        | null => simp at h
        | bool b => simp at h
        | int n => simp at h
        | float f => simp at h
        | arr xs => simp at h
        | obj kvs2 => simp at h

lemma slidesLoop_wf : ∀ (sds : List JSON) (env : Env) (p : Document),
    (∀ sd ∈ sds, wellFormedSlide env sd = true) →
    slidesLoop env p sds = (p ++ sds.map (slideOf env), none)
  | [], env, p, _ => by simp [slidesLoop]
  | sd :: rest, env, p, hall => by
    have h1 := processSlide_wf env p sd (hall sd (by simp))
    simp only [slidesLoop, h1]
    rw [slidesLoop_wf rest env (p ++ [slideOf env sd]) (fun x hx => hall x (by simp [hx]))]
    simp

/-- C2: a file whose stripped non-blank lines all split on a semicolon into
two float-parsing tokens reads to exactly the pairs of those lines in file
order, blank lines skipped; otherwise the read aborts at the first bad line
with a ValueError carrying the message for that line and the file name, and
returns nothing else. -/
theorem readDataFile_characterization (fp : String) (lines : List String) :
    match (lines.map pyStrip).find? isBadLine with
    | none => readDataFileLines fp lines =
        .ok ((lines.map pyStrip).filterMap parsePairOfLine)
    | some l => readDataFileLines fp lines = .error (.valueError (badLineMsg fp l)) := by
  cases hf : (lines.map pyStrip).find? isBadLine with
  | none =>
    unfold readDataFileLines
    rw [readDataAux_ok lines fp [] hf]
    simp
  | some l =>
    unfold readDataFileLines
    exact readDataAux_err lines fp [] l hf

/-- C1 counterexample: this input is in none of the three enumerated cases
(the root carries `presentation`, the slide carries `type`, `title` and
`content`, and its type is `list`, not `plot`), yet makePresentation raises
a missing-key error: the list builder hits the item dict without `level`
and the KeyError propagates. -/
theorem makePresentation_missing_key_incomplete :
    getKey (JSON.obj [("presentation", .arr [.obj [("type", .str "list"),
        ("title", .str "T"), ("content", .arr [.obj []])]])]) "presentation" =
      .ok (.arr [.obj [("type", .str "list"), ("title", .str "T"),
        ("content", .arr [.obj []])]]) ∧
    getKey (JSON.obj [("type", .str "list"), ("title", .str "T"),
        ("content", .arr [.obj []])]) "type" = .ok (.str "list") ∧
    getKey (JSON.obj [("type", .str "list"), ("title", .str "T"),
        ("content", .arr [.obj []])]) "title" = .ok (.str "T") ∧
    getKey (JSON.obj [("type", .str "list"), ("title", .str "T"),
        ("content", .arr [.obj []])]) "content" = .ok (.arr [.obj []]) ∧
    makePresentation envEmpty (.obj [("presentation", .arr [.obj [("type", .str "list"),
        ("title", .str "T"), ("content", .arr [.obj []])]])]) =
      ([.listSlide (.str "T") []], some (.keyError "level")) :=
  ⟨rfl, rfl, rfl, rfl, rfl⟩

/-- C1 (amended): the missing-key errors of makePresentation are exactly:
the root object lacking `presentation` (fixed message); per slide, the first
missing key among `type`, `title`, `content` (message naming slide and key);
for a plot slide, `configuration` and then `x-label`/`y-label` of a dict
configuration (message naming the slide); and, additionally to the claim,
for a list slide the first item key among `level` and (after a valid
positive level) `text` whose absence the builder hits, whose KeyError
propagates unwrapped. -/
theorem makePresentation_missing_key_cases :
    (∀ (env : Env) (p : Document) (sd : JSON),
      keyErrOf (processSlide env p sd).2 = slideMissingKeySpec sd) ∧
    (∀ (env : Env) (kvs : List (String × JSON)), kvs.lookup "presentation" = none →
      makePresentation env (.obj kvs) = ([], some (.keyError msgTopMissing))) := by
  constructor
  · exact processSlide_keyErr
  · intro env kvs hl
    simp [makePresentation, getKey, hl]

/-- C1 witness: the amended theorem applied to the empty root object. -/
theorem makePresentation_missing_key_cases_witness :
    makePresentation envEmpty (.obj []) = ([], some (.keyError msgTopMissing)) :=
  makePresentation_missing_key_cases.2 envEmpty [] rfl

/-- C3: a slide descriptor carrying `type`, `title` and `content` whose type
string is none of the five recognized values (exact, case-sensitive
comparison) makes the assembler raise a ValueError naming the type and the
slide, leaving the document unchanged (no builder is invoked). -/
theorem makePresentation_invalid_type (env : Env) (p : Document) (sd : JSON) (t : String)
    (ti c : JSON) (h1 : getKey sd "type" = .ok (.str t)) (h2 : getKey sd "title" = .ok ti)
    (h3 : getKey sd "content" = .ok c)
    (h4 : (t == "title" || t == "text" || t == "list" || t == "picture" || t == "plot")
      = false) :
    processSlide env p sd = (p, some (.valueError (msgInvalidType (.str t) sd))) := by
  simp only [Bool.or_eq_false_iff, beq_eq_false_iff_ne, ne_eq] at h4
  obtain ⟨⟨⟨⟨n1, n2⟩, n3⟩, n4⟩, n5⟩ := h4
  simp [processSlide, h1, h2, h3, n1, n2, n3, n4, n5]

/-- C3 witness: the type string `Title` (wrong case) is rejected. -/
theorem makePresentation_invalid_type_witness :
    processSlide envEmpty []
      (.obj [("type", .str "Title"), ("title", .str "T"), ("content", .str "C")]) =
      ([], some (.valueError (msgInvalidType (.str "Title")
        (.obj [("type", .str "Title"), ("title", .str "T"), ("content", .str "C")])))) :=
  makePresentation_invalid_type envEmpty [] _ "Title" _ _ rfl rfl rfl (by decide)

/-- C4 counterexample: on input [(1, 5), (1, 2)] the two points have equal
x but are reordered by their y values, so the sort is not stable on x only:
Python list.sort compares whole tuples. -/
theorem createPlotImage_not_stable_on_x :
    createPlotImage [(PyFloat.finite 1, PyFloat.finite 5),
        (PyFloat.finite 1, PyFloat.finite 2)] =
      [(PyFloat.finite 1, PyFloat.finite 2), (PyFloat.finite 1, PyFloat.finite 5)] ∧
    pyEqF (PyFloat.finite 1) (PyFloat.finite 1) = true ∧
    [(PyFloat.finite 1, PyFloat.finite 2), (PyFloat.finite 1, PyFloat.finite 5)] ≠
      [(PyFloat.finite 1, PyFloat.finite 5), (PyFloat.finite 1, PyFloat.finite 2)] :=
  ⟨by decide, by decide, by decide⟩

/-- C4 (amended): the plot renderer plots a permutation of its input sorted
ascending by the full lexicographic tuple order: no later point is strictly
below an earlier one under Python tuple comparison, so ties on x are ordered
by ascending y, and only fully equal points keep their original order. -/
theorem createPlotImage_sorted_lex (pts : List (PyFloat × PyFloat)) :
    (createPlotImage pts).Perm pts ∧
    (createPlotImage pts).Pairwise (fun a b => pyTupleLt b a = false) :=
  ⟨stableSortLt_perm _ _,
    @stableSortLt_pairwise _ pyTupleLt (fun _ _ _ h1 h2 => pyTupleLt_trans h1 h2)
      (fun _ _ h => pyTupleLt_asymm h) pts⟩

/-- C5 counterexample: an item whose level is the float 1.7 is not a
positive integer, yet the builder raises no error: `int` truncates the
level to 1 and the paragraph renders at indentation 0. -/
theorem addListSlide_accepts_float_level :
    addListSlide [] (.str "T")
      (.arr [.obj [("level", .float (.finite (mkRat 17 10))), ("text", .str "a")]]) =
      ([.listSlide (.str "T") [(.str "a", 0)]], none) ∧
    (∀ n : Int, JSON.float (.finite (mkRat 17 10)) ≠ .int n) :=
  ⟨rfl, fun _ h => JSON.noConfusion h⟩

/-- C5 (amended): list items render one paragraph each, in order, at
indentation `int(level) - 1`, for every item whose level `int`-converts to a
positive integer (dict levels with `level` and `text` keys); the validation
error naming the offending item and the slide title is raised exactly when
the first offending item has a level whose `int` conversion is non-positive,
and the paragraphs before it are kept. -/
theorem addListSlide_level_semantics :
    (∀ (p : Document) (title : JSON) (items : List JSON),
      items.all listItemOk = true →
      addListSlide p title (.arr items) =
        (p ++ [.listSlide title (items.map paraOf)], none)) ∧
    (∀ (p : Document) (title item : JSON) (pre rest : List JSON) (v : JSON) (n : Int),
      pre.all listItemOk = true → getKey item "level" = .ok v → pyInt v = .ok n → n ≤ 0 →
      addListSlide p title (.arr (pre ++ item :: rest)) =
        (p ++ [.listSlide title (pre.map paraOf)],
          some (.valueError (msgListLevel item title)))) := by
  constructor
  · intro p title items hall
    simp only [addListSlide, pyIter, listLoop_ok items title [] hall]
    simp
  · intro p title item pre rest v n hall hkl hki hn
    simp only [addListSlide, pyIter,
      listLoop_nonpos pre title item rest [] v n hall hkl hki hn]
    simp

/-- C5 witness: a level-2 item renders at indentation 1; a level-0 item
raises the naming ValueError. -/
theorem addListSlide_level_semantics_witness :
    addListSlide [] (.str "T") (.arr [.obj [("level", .int 2), ("text", .str "x")]]) =
      ([.listSlide (.str "T") [(.str "x", 1)]], none) ∧
    addListSlide [] (.str "T") (.arr [.obj [("level", .int 0), ("text", .str "y")]]) =
      ([.listSlide (.str "T") []],
        some (.valueError (msgListLevel (.obj [("level", .int 0), ("text", .str "y")])
          (.str "T")))) := by
  constructor
  · exact (addListSlide_level_semantics.1 [] (.str "T")
      [.obj [("level", .int 2), ("text", .str "x")]] (by decide)).trans rfl
  · exact (addListSlide_level_semantics.2 [] (.str "T")
      (.obj [("level", .int 0), ("text", .str "y")]) [] [] (.int 0) 0 rfl rfl rfl
      (by decide)).trans rfl

/-- C6: the image validator never raises: it returns a boolean that is true
exactly when the path exists and decodes and verifies as an image; every
failure of PIL open/verify is an OSError (IOError) and is caught to false. -/
theorem isValidImage_total_boolean (env : Env) (path : String) :
    isValidImage env path = .ok (env.images path == ImgStat.valid) :=
  isValidImage_ok env path

/-- C7: a well-formed slide descriptor makes its builder append exactly one
slide at the end of the document, leaving the existing slides unchanged, and
a well-formed presentation with n descriptors converts to exactly the n
corresponding slides in descriptor order. -/
theorem makePresentation_slide_count :
    (∀ (env : Env) (p : Document) (sd : JSON), wellFormedSlide env sd = true →
      processSlide env p sd = (p ++ [slideOf env sd], none)) ∧
    (∀ (env : Env) (kvs : List (String × JSON)) (sds : List JSON),
      getKey (.obj kvs) "presentation" = .ok (.arr sds) →
      (∀ sd ∈ sds, wellFormedSlide env sd = true) →
      makePresentation env (.obj kvs) = (sds.map (slideOf env), none) ∧
        (sds.map (slideOf env)).length = sds.length) := by
  constructor
  · exact processSlide_wf
  · intro env kvs sds hp hall
    refine ⟨?_, by simp⟩
    simp only [makePresentation, hp, pyIter]
    rw [slidesLoop_wf sds env [] hall]
    simp

/-- C7 witness: a two-descriptor presentation yields exactly two slides in
order. -/
theorem makePresentation_slide_count_witness :
    makePresentation envEmpty (.obj [("presentation", .arr
      [.obj [("type", .str "title"), ("title", .str "A"), ("content", .str "S")],
       .obj [("type", .str "text"), ("title", .str "B"), ("content", .str "C")]])]) =
      ([.titleSlide (.str "A") (.str "S"), .textSlide (.str "B") (.str "C")], none) :=
  ((makePresentation_slide_count.2 envEmpty
    [("presentation", .arr
      [.obj [("type", .str "title"), ("title", .str "A"), ("content", .str "S")],
       .obj [("type", .str "text"), ("title", .str "B"), ("content", .str "C")]])]
    [.obj [("type", .str "title"), ("title", .str "A"), ("content", .str "S")],
     .obj [("type", .str "text"), ("title", .str "B"), ("content", .str "C")]]
    rfl (by decide)).1).trans rfl

/-- C8 counterexample: the token `nan` parses as a float, so the reader
accepts it and returns a pair whose first coordinate is NaN, which is not
finite. -/
theorem readDataFile_accepts_nan :
    readDataFileLines "points.dat" ["nan;1.0"] =
      .ok [(PyFloat.nan, PyFloat.finite 1)] ∧
    PyFloat.isFinite PyFloat.nan = false :=
  ⟨rfl, rfl⟩

/-- C8 (amended): tokens parsing to non-finite floats are accepted as data
point coordinates: a line `nan;inf` contributes the pair (NaN, +infinity)
in front of whatever the rest of the file contributes. -/
theorem readDataFile_nonfinite_tokens (fp : String) (rest : List String) :
    readDataFileLines fp ("nan;inf" :: rest) =
      (readDataFileLines fp rest).map
        (fun d => (PyFloat.nan, PyFloat.inf false) :: d) := by
  show readDataAux fp ([] ++ [(PyFloat.nan, PyFloat.inf false)]) rest =
    (readDataAux fp [] rest).map (fun d => (PyFloat.nan, PyFloat.inf false) :: d)
  rw [readDataAux_append rest fp ([] ++ [(PyFloat.nan, PyFloat.inf false)])]
  cases readDataAux fp [] rest <;> rfl

/-- C9: the picture and plot builders append the slide and set its title
before validating the image or reading the data file, so on those errors
the document has already gained one slide carrying the title and no image. -/
theorem builders_not_atomic :
    (∀ (env : Env) (p : Document) (title : JSON) (path : String),
      isValidImage env path = .ok false →
      addImgSlide env p title (.str path) =
        (p ++ [.pictureSlide title none],
          some (.valueError (msgBadImage (.str path))))) ∧
    (∀ (env : Env) (p : Document) (title : JSON) (path : String) (xl yl : JSON)
      (e : PyError), readDataFileFS env path = .error e →
      addPlotSlide env p title (.str path) xl yl =
        (p ++ [.plotSlide title none], some e)) := by
  constructor
  · intro env p title path h
    simp [addImgSlide, h]
  · intro env p title path xl yl e h
    simp [addPlotSlide, h]

/-- C9 witness: with no files present, both builders leave behind a titled
slide without an image while raising. -/
theorem builders_not_atomic_witness :
    addImgSlide envEmpty [] (.str "T") (.str "missing.png") =
      ([.pictureSlide (.str "T") none],
        some (.valueError (msgBadImage (.str "missing.png")))) ∧
    addPlotSlide envEmpty [] (.str "T") (.str "missing.dat") (.str "X") (.str "Y") =
      ([.plotSlide (.str "T") none], some (.fileNotFoundError "missing.dat")) :=
  ⟨(builders_not_atomic.1 envEmpty [] (.str "T") "missing.png" rfl).trans rfl,
   (builders_not_atomic.2 envEmpty [] (.str "T") "missing.dat" (.str "X") (.str "Y")
     (.fileNotFoundError "missing.dat") rfl).trans rfl⟩

/-- C10: createPlotImage sorts the caller's datapoint list in place: the
post-call state of the argument is the sorted permutation of its elements,
and for an unsorted input it differs from the original order, as on
[(3, 4), (1, 2)]. -/
theorem createPlotImage_mutates_argument (pts : List (PyFloat × PyFloat)) :
    (createPlotImage pts).Perm pts ∧
    (createPlotImage pts).Pairwise (fun a b => pyTupleLt b a = false) ∧
    createPlotImage [(PyFloat.finite 3, PyFloat.finite 4),
        (PyFloat.finite 1, PyFloat.finite 2)] =
      [(PyFloat.finite 1, PyFloat.finite 2), (PyFloat.finite 3, PyFloat.finite 4)] :=
  ⟨stableSortLt_perm _ _,
    @stableSortLt_pairwise _ pyTupleLt (fun _ _ _ h1 h2 => pyTupleLt_trans h1 h2)
      (fun _ _ h => pyTupleLt_asymm h) pts,
    by decide⟩
